import Mathlib

/-!
Verification of `check_door_accessibility` (src/tools/checker_doors.py).

The checker scans every `IfcDoor` element of a loaded IFC model, classifies
each door as `pass` or `fail` against a minimum-width threshold, and appends a
single summary record. Python float values (the widths and the threshold) are
embedded as rationals: the code only compares them with `>=` and renders them
with `str`, and every concrete value exercised here is integral.
-/

namespace CheckerDoors

/-- A door element as the checker reads it: the three optional attributes
accessed with `getattr`, plus the numeric identity accessor `door.id()`. -/
structure Door where
  GlobalId : Option String
  Name : Option String
  OverallWidth : Option ℚ
  id : ℕ
deriving Repr, DecidableEq

/-- The model object. `by_type` embeds `model.by_type("IfcDoor")`; the value
`none` models a model object without a `by_type` attribute, so that
`hasattr(model, "by_type")` is false. -/
structure Model where
  by_type : Option (List Door)
deriving Repr, DecidableEq

/-- One result record, with the nine keys of the dict built by the checker. -/
structure CheckResult where
  element_id : Option String
  element_type : String
  element_name : String
  element_name_long : Option String
  check_status : String
  actual_value : String
  required_value : String
  comment : Option String
  log : Option String
deriving Repr, DecidableEq, Inhabited

/-- Rendering of a Python float by `str`, embedded for rationals: an integral
value `n` prints as `n.0` exactly as Python prints the corresponding float.
(Non-integral values fall back to the rational literal; the code under
verification only ever renders values through ordering and `str`, and all
rendered concrete values in this development are integral.) -/
def pyFloatStr (q : ℚ) : String :=
  if q.den = 1 then toString q.num ++ ".0" else toString q

/-- `hasattr`/`by_type` probe: the door list the loop ranges over,
`model.by_type("IfcDoor") if hasattr(model, "by_type") else []`. -/
def doorsOf (model : Model) : List Door :=
  match model.by_type with
  | some doors => doors
  | none => []

/-- The test `has_width and width >= min_width_mm` deciding a door's status. -/
def widthPass (min_width_mm : ℚ) (width : Option ℚ) : Bool :=
  match width with
  | some w => decide (w ≥ min_width_mm)
  | none => false

/-- The `comment` value of a per-door record: `None` on pass, one of the two
failure messages otherwise. -/
def doorComment (min_width_mm : ℚ) (width : Option ℚ) : Option String :=
  match width with
  | some w =>
      if w ≥ min_width_mm then none
      else some ("Door width " ++ pyFloatStr w ++
        " mm is below required minimum " ++ pyFloatStr min_width_mm ++ " mm")
  | none => some "Door width is not specified (OverallWidth is missing)"

/-- `getattr(door, "Name", None) or f"Door #{door.id()}"`: Python `or` falls
through on `None` and on the empty string. -/
def elementName (door : Door) : String :=
  match door.Name with
  | some n => if n = "" then "Door #" ++ toString door.id else n
  | none => "Door #" ++ toString door.id

/-- The record appended to `results` for one door. -/
def doorRecord (min_width_mm : ℚ) (door : Door) : CheckResult :=
  { element_id := door.GlobalId
    element_type := "IfcDoor"
    element_name := elementName door
    element_name_long := none
    check_status := if widthPass min_width_mm door.OverallWidth then "pass" else "fail"
    actual_value :=
      match door.OverallWidth with
      | some w => pyFloatStr w
      | none => "Unknown width"
    required_value := ">= " ++ pyFloatStr min_width_mm ++ " mm"
    comment := doorComment min_width_mm door.OverallWidth
    log := none }

/-- The mutable state of the `for door in doors` loop: the `results` list and
the two counters. -/
structure LoopState where
  results : List CheckResult
  compliant_count : ℕ
  non_compliant_count : ℕ
deriving Repr, DecidableEq

/-- One iteration of the loop body: classify the door, bump the matching
counter, append the record. -/
def processDoor (min_width_mm : ℚ) (st : LoopState) (door : Door) : LoopState :=
  if widthPass min_width_mm door.OverallWidth then
    { results := st.results ++ [doorRecord min_width_mm door]
      compliant_count := st.compliant_count + 1
      non_compliant_count := st.non_compliant_count }
  else
    { results := st.results ++ [doorRecord min_width_mm door]
      compliant_count := st.compliant_count
      non_compliant_count := st.non_compliant_count + 1 }

/-- The summary record appended after the loop, from the door total, the two
counters and the threshold. -/
def summaryRecord (min_width_mm : ℚ)
    (total_doors compliant_count non_compliant_count : ℕ) : CheckResult :=
  let status_comment : String × String :=
    if total_doors = 0 then
      ("warning", "Model contains no IfcDoor elements")
    else if non_compliant_count = 0 then
      ("pass", "All " ++ toString total_doors ++ " doors meet or exceed the minimum width")
    else
      ("fail", toString non_compliant_count ++ " of " ++ toString total_doors ++
        " doors are below the required minimum width of " ++
        pyFloatStr min_width_mm ++ " mm or have no width set")
  { element_id := none
    element_type := "Summary"
    element_name := "Door Accessibility Check"
    element_name_long := none
    check_status := status_comment.1
    actual_value := toString compliant_count ++ " / " ++ toString total_doors ++
      " doors compliant"
    required_value := "All doors width >= " ++ pyFloatStr min_width_mm ++ " mm"
    comment := some status_comment.2
    log := none }

/-- `check_door_accessibility(model, min_width_mm=900.0, **kwargs)`. The
keyword options are embedded as an association list that, as in the source,
is never read. -/
def check_door_accessibility (model : Model) (min_width_mm : ℚ)
    (kwargs : List (String × String)) : List CheckResult :=
  let _ := kwargs
  let doors := doorsOf model
  let st := doors.foldl (processDoor min_width_mm) ⟨[], 0, 0⟩
  st.results ++
    [summaryRecord min_width_mm doors.length st.compliant_count st.non_compliant_count]

/-- Number of doors counted compliant by the loop. -/
def compliantCount (min_width_mm : ℚ) (doors : List Door) : ℕ :=
  doors.countP (fun d => widthPass min_width_mm d.OverallWidth)

/-- Number of doors counted non-compliant by the loop. -/
def nonCompliantCount (min_width_mm : ℚ) (doors : List Door) : ℕ :=
  doors.countP (fun d => !widthPass min_width_mm d.OverallWidth)

/- Concrete inputs used by the example claims and the witnesses. -/

/-- A 1000 mm wide door. -/
def doorWide : Door := { GlobalId := some "g1", Name := some "D1", OverallWidth := some 1000, id := 1 }

/-- An 800 mm wide door. -/
def doorNarrow : Door := { GlobalId := some "g2", Name := some "D2", OverallWidth := some 800, id := 2 }

/-- A door with no `OverallWidth` attribute. -/
def doorNoWidth : Door := { GlobalId := some "g3", Name := none, OverallWidth := none, id := 3 }

/-- The spec example model: three doors with widths 1000, 800 and absent. -/
def exampleModel : Model := { by_type := some [doorWide, doorNarrow, doorNoWidth] }

/-- A model object lacking the `by_type` attribute. -/
def modelNoByType : Model := { by_type := none }

/- Loop characterisation lemmas. -/

theorem foldl_processDoor (min_width_mm : ℚ) (doors : List Door) (init : LoopState) :
    doors.foldl (processDoor min_width_mm) init =
      { results := init.results ++ doors.map (doorRecord min_width_mm)
        compliant_count := init.compliant_count + compliantCount min_width_mm doors
        non_compliant_count :=
          init.non_compliant_count + nonCompliantCount min_width_mm doors } := by
  induction doors generalizing init with
  | nil => simp [compliantCount, nonCompliantCount]
  | cons d ds ih =>
      simp only [List.foldl_cons, ih, processDoor, compliantCount, nonCompliantCount,
        List.countP_cons, List.map_cons]
      by_cases h : widthPass min_width_mm d.OverallWidth = true
      · simp [h]
        omega
      · simp [h]
        omega

theorem check_door_accessibility_eq (model : Model) (min_width_mm : ℚ)
    (kwargs : List (String × String)) :
    check_door_accessibility model min_width_mm kwargs =
      (doorsOf model).map (doorRecord min_width_mm) ++
        [summaryRecord min_width_mm (doorsOf model).length
          (compliantCount min_width_mm (doorsOf model))
          (nonCompliantCount min_width_mm (doorsOf model))] := by
  simp [check_door_accessibility, foldl_processDoor]

/-- C1: a per-door record's check_status is "pass" iff the door's OverallWidth
is present and at least min_width_mm, otherwise it is "fail"; and on "pass"
the comment field is None. -/
theorem c1_per_door_status (min_width_mm : ℚ) (door : Door) :
    ((doorRecord min_width_mm door).check_status = "pass" ↔
      ∃ w, door.OverallWidth = some w ∧ w ≥ min_width_mm) ∧
    ((doorRecord min_width_mm door).check_status = "pass" ∨
      (doorRecord min_width_mm door).check_status = "fail") ∧
    ((doorRecord min_width_mm door).check_status = "pass" →
      (doorRecord min_width_mm door).comment = none) := by
  have hpf : ("fail" : String) ≠ "pass" := by decide
  cases h : door.OverallWidth with
  | none => simp [doorRecord, widthPass, doorComment, h, hpf]
  | some w =>
      by_cases hw : w ≥ min_width_mm <;>
        simp [doorRecord, widthPass, doorComment, h, hw, hpf]

/-- Witness for C1 at a concrete 1000 mm door against a 900 mm threshold. -/
theorem c1_per_door_status_witness : (doorRecord 900 doorWide).check_status = "pass" :=
  (c1_per_door_status 900 doorWide).1.mpr ⟨1000, rfl, by norm_num⟩

/-- C2: the summary record (the last record of the output) has check_status
"fail" iff the non-compliant count is positive, "pass" iff there are doors
and none is non-compliant (with the all-doors-compliant comment), and
"warning" iff there are no doors (with the no-doors comment). -/
theorem c2_summary_status (model : Model) (min_width_mm : ℚ)
    (kwargs : List (String × String)) :
    ∃ s, (check_door_accessibility model min_width_mm kwargs).getLast? = some s ∧
      (s.check_status = "fail" ↔ 0 < nonCompliantCount min_width_mm (doorsOf model)) ∧
      (s.check_status = "pass" ↔
        (0 < (doorsOf model).length ∧ nonCompliantCount min_width_mm (doorsOf model) = 0)) ∧
      (s.check_status = "warning" ↔ (doorsOf model).length = 0) ∧
      ((doorsOf model).length = 0 →
        s.comment = some "Model contains no IfcDoor elements") ∧
      (0 < (doorsOf model).length → nonCompliantCount min_width_mm (doorsOf model) = 0 →
        s.comment = some ("All " ++ toString (doorsOf model).length ++
          " doors meet or exceed the minimum width")) := by
  refine ⟨summaryRecord min_width_mm (doorsOf model).length
    (compliantCount min_width_mm (doorsOf model))
    (nonCompliantCount min_width_mm (doorsOf model)), ?_, ?_⟩
  · rw [check_door_accessibility_eq]
    exact List.getLast?_concat _
  · have hwf : ("warning" : String) ≠ "fail" := by decide
    have hwp : ("warning" : String) ≠ "pass" := by decide
    have hpf : ("pass" : String) ≠ "fail" := by decide
    have hpw : ("pass" : String) ≠ "warning" := by decide
    have hfp : ("fail" : String) ≠ "pass" := by decide
    have hfw : ("fail" : String) ≠ "warning" := by decide
    rcases Nat.eq_zero_or_pos (doorsOf model).length with h0 | h0
    · have hnc : nonCompliantCount min_width_mm (doorsOf model) = 0 := by
        have := List.countP_le_length
          (fun d => !widthPass min_width_mm d.OverallWidth) (l := doorsOf model)
        simp only [nonCompliantCount]
        omega
      simp [summaryRecord, h0, hnc, hwf, hwp]
    · by_cases hnc : nonCompliantCount min_width_mm (doorsOf model) = 0
      · simp [summaryRecord, Nat.pos_iff_ne_zero.mp h0, hnc, hpf, hpw, h0]
      · simp [summaryRecord, Nat.pos_iff_ne_zero.mp h0, hnc, hfp, hfw, h0,
          Nat.pos_of_ne_zero hnc]

/-- Witness for C2 at the three-door example model. -/
theorem c2_summary_status_witness :
    ∃ s, (check_door_accessibility exampleModel 900 []).getLast? = some s ∧
      s.check_status = "fail" :=
  match c2_summary_status exampleModel 900 [] with
  | ⟨s, hlast, hfail, _⟩ => ⟨s, hlast, hfail.mpr (by decide)⟩

/-- C3: the output has one record per door plus one, and its last record is
the unique record whose element_type is "Summary". -/
theorem c3_output_shape (model : Model) (min_width_mm : ℚ)
    (kwargs : List (String × String)) :
    (check_door_accessibility model min_width_mm kwargs).length =
      (doorsOf model).length + 1 ∧
    ∀ i, ∀ hi : i < (check_door_accessibility model min_width_mm kwargs).length,
      (((check_door_accessibility model min_width_mm kwargs).get ⟨i, hi⟩).element_type =
          "Summary" ↔ i = (doorsOf model).length) := by
  rw [check_door_accessibility_eq]
  refine ⟨by simp, ?_⟩
  intro i hi
  have hlen : i < (doorsOf model).length + 1 := by
    simpa using hi
  rcases Nat.lt_or_ge i (doorsOf model).length with hlt | hge
  · have : ((doorsOf model).map (doorRecord min_width_mm) ++
        [summaryRecord min_width_mm (doorsOf model).length
          (compliantCount min_width_mm (doorsOf model))
          (nonCompliantCount min_width_mm (doorsOf model))]).get ⟨i, hi⟩ =
        doorRecord min_width_mm ((doorsOf model).get ⟨i, hlt⟩) := by
      rw [List.get_eq_getElem, List.getElem_append_left (by simpa using hlt)]
      simp
    rw [this]
    have hne : ("IfcDoor" : String) ≠ "Summary" := by decide
    simp [doorRecord, hne]
    omega
  · have hieq : i = (doorsOf model).length := by omega
    subst hieq
    have : ((doorsOf model).map (doorRecord min_width_mm) ++
        [summaryRecord min_width_mm (doorsOf model).length
          (compliantCount min_width_mm (doorsOf model))
          (nonCompliantCount min_width_mm (doorsOf model))]).get ⟨(doorsOf model).length, hi⟩ =
        summaryRecord min_width_mm (doorsOf model).length
          (compliantCount min_width_mm (doorsOf model))
          (nonCompliantCount min_width_mm (doorsOf model)) := by
      rw [List.get_eq_getElem, List.getElem_append_right (by simp)]
      simp
    rw [this]
    simp [summaryRecord]

/-- Witness for C3 at the three-door example model, the summary at index 3. -/
theorem c3_output_shape_witness :
    ((check_door_accessibility exampleModel 900 []).get ⟨3, by decide⟩).element_type =
      "Summary" ↔ 3 = (doorsOf exampleModel).length :=
  (c3_output_shape exampleModel 900 []).2 3 (by decide)

/-- C4: a door with no OverallWidth yields check_status "fail", the
missing-width comment, and actual_value "Unknown width". -/
theorem c4_missing_width (min_width_mm : ℚ) (door : Door)
    (h : door.OverallWidth = none) :
    (doorRecord min_width_mm door).check_status = "fail" ∧
    (doorRecord min_width_mm door).comment =
      some "Door width is not specified (OverallWidth is missing)" ∧
    (doorRecord min_width_mm door).actual_value = "Unknown width" := by
  simp [doorRecord, widthPass, doorComment, h]

/-- Witness for C4 at the concrete door without a width. -/
theorem c4_missing_width_witness :
    (doorRecord 900 doorNoWidth).check_status = "fail" ∧
    (doorRecord 900 doorNoWidth).comment =
      some "Door width is not specified (OverallWidth is missing)" ∧
    (doorRecord 900 doorNoWidth).actual_value = "Unknown width" :=
  c4_missing_width 900 doorNoWidth rfl

/-- C5: a door whose width is present but below the threshold yields
check_status "fail" and the below-minimum comment carrying both the actual
width and the required minimum. -/
theorem c5_below_minimum (min_width_mm w : ℚ) (door : Door)
    (h : door.OverallWidth = some w) (hlt : w < min_width_mm) :
    (doorRecord min_width_mm door).check_status = "fail" ∧
    (doorRecord min_width_mm door).comment =
      some ("Door width " ++ pyFloatStr w ++ " mm is below required minimum " ++
        pyFloatStr min_width_mm ++ " mm") := by
  simp [doorRecord, widthPass, doorComment, h, not_le.mpr hlt]

/-- Witness for C5 at the concrete 800 mm door against a 900 mm threshold. -/
theorem c5_below_minimum_witness :
    (doorRecord 900 doorNarrow).check_status = "fail" ∧
    (doorRecord 900 doorNarrow).comment =
      some ("Door width " ++ pyFloatStr 800 ++ " mm is below required minimum " ++
        pyFloatStr 900 ++ " mm") :=
  c5_below_minimum 900 800 doorNarrow rfl (by norm_num)

/-- C6: a model without the by_type capability raises no error: the door set
is treated as empty and the output is exactly the one summary record, with
check_status "warning". -/
theorem c6_no_by_type (model : Model) (min_width_mm : ℚ)
    (kwargs : List (String × String)) (h : model.by_type = none) :
    check_door_accessibility model min_width_mm kwargs =
      [summaryRecord min_width_mm 0 0 0] ∧
    (check_door_accessibility model min_width_mm kwargs).length = 1 ∧
    (summaryRecord min_width_mm 0 0 0).check_status = "warning" := by
  have hd : doorsOf model = [] := by simp [doorsOf, h]
  refine ⟨?_, ?_, ?_⟩
  · rw [check_door_accessibility_eq, hd]
    simp [compliantCount, nonCompliantCount]
  · rw [check_door_accessibility_eq, hd]
    simp
  · simp [summaryRecord]

/-- Witness for C6 at the concrete model lacking by_type. -/
theorem c6_no_by_type_witness :
    check_door_accessibility modelNoByType 900 [] = [summaryRecord 900 0 0 0] ∧
    (check_door_accessibility modelNoByType 900 []).length = 1 ∧
    (summaryRecord 900 0 0 0).check_status = "warning" :=
  c6_no_by_type modelNoByType 900 [] rfl

/-- C7: a per-door record's element_name is the door's Name when present and
non-empty, and otherwise the synthesized string built from the fallback
numeric id. -/
theorem c7_element_name (min_width_mm : ℚ) (door : Door) :
    (∀ n, door.Name = some n → n ≠ "" →
      (doorRecord min_width_mm door).element_name = n) ∧
    ((door.Name = none ∨ door.Name = some "") →
      (doorRecord min_width_mm door).element_name = "Door #" ++ toString door.id) := by
  constructor
  · intro n hn hne
    simp [doorRecord, elementName, hn, hne]
  · rintro (hn | hn) <;> simp [doorRecord, elementName, hn]

/-- Witness for C7: a named door keeps its name, an unnamed door falls back
to the synthesized id string. -/
theorem c7_element_name_witness :
    (doorRecord 900 doorWide).element_name = "D1" ∧
    (doorRecord 900 doorNoWidth).element_name = "Door #3" := by
  refine ⟨(c7_element_name 900 doorWide).1 "D1" rfl (by decide), ?_⟩
  simpa using (c7_element_name 900 doorNoWidth).2 (Or.inl rfl)

/-- C8: on the three-door example (widths 1000, 800, absent; threshold 900)
the statuses are pass, fail, fail, and the summary record is a fail with the
expected comment, actual_value and required_value. -/
theorem c8_example_model :
    (check_door_accessibility exampleModel 900 []).map CheckResult.check_status =
      ["pass", "fail", "fail", "fail"] ∧
    ∃ s, (check_door_accessibility exampleModel 900 []).getLast? = some s ∧
      s.check_status = "fail" ∧
      s.comment = some ("2 of 3 doors are below the required minimum width of " ++
        "900.0 mm or have no width set") ∧
      s.actual_value = "1 / 3 doors compliant" ∧
      s.required_value = "All doors width >= 900.0 mm" :=
  ⟨rfl, summaryRecord 900 3 1 2, rfl, rfl, rfl, rfl, rfl⟩

/-- C9: the extra keyword-style options have no effect on the output: any two
runs differing only in kwargs return identical record sequences. -/
theorem c9_kwargs_noninterference (model : Model) (min_width_mm : ℚ)
    (kwargs1 kwargs2 : List (String × String)) :
    check_door_accessibility model min_width_mm kwargs1 =
      check_door_accessibility model min_width_mm kwargs2 := rfl

/-- C10: the i-th output record is the record produced for the i-th door of
the model's door enumeration, with element_type "IfcDoor". -/
theorem c10_order (model : Model) (min_width_mm : ℚ)
    (kwargs : List (String × String)) (i : ℕ) (h : i < (doorsOf model).length) :
    ∃ hi : i < (check_door_accessibility model min_width_mm kwargs).length,
      (check_door_accessibility model min_width_mm kwargs).get ⟨i, hi⟩ =
        doorRecord min_width_mm ((doorsOf model).get ⟨i, h⟩) ∧
      ((check_door_accessibility model min_width_mm kwargs).get ⟨i, hi⟩).element_type =
        "IfcDoor" := by
  have hlen : (check_door_accessibility model min_width_mm kwargs).length =
      (doorsOf model).length + 1 := by
    rw [check_door_accessibility_eq]
    simp
  refine ⟨by omega, ?_⟩
  have hget : (check_door_accessibility model min_width_mm kwargs).get
      ⟨i, by omega⟩ = doorRecord min_width_mm ((doorsOf model).get ⟨i, h⟩) := by
    rw [List.get_eq_getElem,
      List.getElem_of_eq (check_door_accessibility_eq model min_width_mm kwargs) _,
      List.getElem_append_left (by simpa using h)]
    simp
  rw [hget]
  exact ⟨rfl, rfl⟩

/-- Witness for C10 at index 0 of the three-door example model. -/
theorem c10_order_witness :
    ∃ hi : 0 < (check_door_accessibility exampleModel 900 []).length,
      (check_door_accessibility exampleModel 900 []).get ⟨0, hi⟩ =
        doorRecord 900 ((doorsOf exampleModel).get ⟨0, by decide⟩) ∧
      ((check_door_accessibility exampleModel 900 []).get ⟨0, hi⟩).element_type =
        "IfcDoor" :=
  c10_order exampleModel 900 [] 0 (by decide)

end CheckerDoors
